import Mathlib

/-!
Verification of the garage-monitor capture core (gargagepi).

Shallow embedding of the capture-path subset of the source:
`src/photo_scheduler.py` (namespace `PhotoSchedulerPy`),
`src/organized-garage-monitor/pi-setup/cloud-streaming/stream_server.py`
(namespace `StreamServer`), and `src/app.py` (`CameraManager` model).
The recurring-job semantics of the third-party `schedule` library that both
scheduler files drive (`schedule.every(n).minutes.do(...)`,
`schedule.run_pending()`, `schedule.clear()`) are embedded as well, since the
claims about rescheduling and job clearing are decided by that library's
behaviour: a job stores its period and its `next_run` instant; `run_pending`
runs every job whose `next_run` has passed and then sets
`next_run := now + period` (the library reschedules from the moment the job
ran, not from the moment it was due).
-/

namespace GaragePi

/-! ## Time of day (Python `datetime.time`) -/

/-- A Python `datetime.time` value: hour, minute, second, microsecond. -/
structure TimeOfDay where
  hour : Nat
  minute : Nat
  second : Nat
  microsecond : Nat
deriving DecidableEq, Repr

/-- The field bounds `datetime.time` enforces at construction. -/
def TimeOfDay.valid (t : TimeOfDay) : Bool :=
  decide (t.hour < 24) && decide (t.minute < 60) && decide (t.second < 60) &&
    decide (t.microsecond < 1000000)

/-- Python compares `datetime.time` values field by field, most significant
first; this is the `<=` of that order. -/
def timeLe (a b : TimeOfDay) : Bool :=
  decide (a.hour < b.hour) ||
    (decide (a.hour = b.hour) &&
      (decide (a.minute < b.minute) ||
        (decide (a.minute = b.minute) &&
          (decide (a.second < b.second) ||
            (decide (a.second = b.second) &&
              decide (a.microsecond ≤ b.microsecond))))))

/-- Microseconds since midnight; the absolute position of a time of day. -/
def TimeOfDay.toMicros (t : TimeOfDay) : Nat :=
  ((t.hour * 60 + t.minute) * 60 + t.second) * 1000000 + t.microsecond

namespace PhotoSchedulerPy

/-- The function `PhotoScheduler.get_current_interval` of photo_scheduler.py,
with the
wall-clock reading `datetime.now().time()` passed in as `now`: interval is 5
minutes when `morning_start <= now <= morning_end` or
`evening_start <= now <= evening_end` (7:00-9:30 and 16:00-19:00), else 15. -/
def get_current_interval (now : TimeOfDay) : Nat :=
  let morning_start : TimeOfDay := ⟨7, 0, 0, 0⟩
  let morning_end : TimeOfDay := ⟨9, 30, 0, 0⟩
  let evening_start : TimeOfDay := ⟨16, 0, 0, 0⟩
  let evening_end : TimeOfDay := ⟨19, 0, 0, 0⟩
  if (timeLe morning_start now && timeLe now morning_end) ||
      (timeLe evening_start now && timeLe now evening_end) then
    5
  else
    15

end PhotoSchedulerPy

/-- A Python runtime error, used where the embedded code raises. -/
inductive PyError where
  | typeError
deriving DecidableEq, Repr

namespace StreamServer

/-- The copy of `PhotoScheduler.get_current_interval` in stream_server.py.
The file has
`from datetime import datetime` in scope (line 17), so in its body the name
`datetime` is the class `datetime.datetime`, and its first statement
`morning_start = datetime.time(7, 0)` invokes the *instance method*
`datetime.time` on the integer `7`, which raises `TypeError` before any
comparison runs. Every call therefore raises, for every time of day. -/
def get_current_interval (_now : TimeOfDay) : Except PyError Nat :=
  Except.error PyError.typeError

end StreamServer

/-- The claim's high-frequency window, written from the spec's words over the
absolute position of `t`: `t` in [07:00, 09:30] or in [16:00, 19:00], both
boundary instants included. -/
def specHighWindow (t : TimeOfDay) : Bool :=
  (decide (7 * 3600000000 ≤ t.toMicros) &&
      decide (t.toMicros ≤ (9 * 3600 + 30 * 60) * 1000000)) ||
    (decide (16 * 3600000000 ≤ t.toMicros) &&
      decide (t.toMicros ≤ 19 * 3600000000))

/-! ## Metadata store (photo_scheduler.py and stream_server.py) -/

/-- The `photo_metadata.json` record: total count, per-date counts (a Python
dict, kept in insertion order), last-capture timestamp. -/
structure Metadata where
  total_photos : Nat
  photos_by_date : List (String × Nat)
  last_capture : Option String
deriving DecidableEq, Repr

/-- The zero state both `load_metadata` fallbacks return:
`{'total_photos': 0, 'photos_by_date': {}, 'last_capture': None}`. -/
def emptyMetadata : Metadata := ⟨0, [], none⟩

/-- The capture path's dict update: `if d not in dict: dict[d] = 0` then
`dict[d] += 1` — the existing binding of the key is bumped in place, a
missing key is appended with count 1 (Python dicts keep insertion order). -/
def dictIncr : List (String × Nat) → String → List (String × Nat)
  | [], d => [(d, 1)]
  | (k, v) :: rest, d =>
      if k = d then (k, v + 1) :: rest else (k, v) :: dictIncr rest d

/-- The per-date sum `sum(metadata['photos_by_date'].values())`. -/
def sumCounts (m : List (String × Nat)) : Nat := (m.map Prod.snd).sum

/-- The `load_metadata` method (textually identical in photo_scheduler.py and
stream_server.py): return the parsed file content when the file exists and
parses; a missing file, or any exception while opening or parsing it, falls
through to the zero state. The argument is the metadata file's content:
`none` = file absent, `some none` = present but unreadable as JSON,
`some (some m)` = parses as `m`. -/
def load_metadata : Option (Option Metadata) → Metadata
  | some (some m) => m
  | _ => emptyMetadata

/-- Where one attempt to write the metadata file can end: the write succeeds;
the `open` itself fails (the file is untouched); or the `open` succeeds —
truncating the file at once, since the mode is `'w'` — and the `json.dump`
then fails, leaving a truncated or partial file behind. -/
inductive WriteOutcome where
  | ok
  | openFailed
  | dumpFailed
deriving DecidableEq, Repr

/-- The `save_metadata` method (textually identical in both files):
`open(self.metadata_file, 'w')` truncates the file immediately, then
`json.dump` writes the record into it; any exception is logged and swallowed,
raising nothing to the caller. On success the file holds the record; a
failure of the `open` leaves the file as it was; a failure during the dump
leaves the truncated or partially written file, which no longer parses. The
result is the file's content after the call. -/
def save_metadata (out : WriteOutcome) (m : Metadata)
    (store : Option (Option Metadata)) : Option (Option Metadata) :=
  match out with
  | .ok => some (some m)
  | .openFailed => store
  | .dumpFailed => some none

/-- The `PhotoScheduler` fields the capture path touches: the in-process
`photo_count` counter and the in-memory metadata record. -/
structure SchedulerState where
  photo_count : Nat
  metadata : Metadata
deriving DecidableEq, Repr

/-- The constructor `PhotoScheduler.__init__` (both files):
`self.photo_count = 0` and
`self.metadata = self.load_metadata()`, from the given file content. -/
def initScheduler (file : Option (Option Metadata)) : SchedulerState :=
  ⟨0, load_metadata file⟩

namespace PhotoSchedulerPy

/-- photo_scheduler.py `PhotoScheduler.capture_photo`: ask the Flask app's
`/capture` endpoint; on a reported success (HTTP 200 with `success` true),
bump the in-process `photo_count`, bump today's bucket, set `total_photos`
to `photo_count` (not to its previous stored value plus one), set
`last_capture`, save the metadata, and return True; any failure reply or
request exception is logged and returns False without touching the metadata.
`apiSuccess` is the outcome of the HTTP call, `saveOut` of the metadata file
write, `date`/`iso` the two formattings of `datetime.now()`. -/
def capture_photo (apiSuccess : Bool) (saveOut : WriteOutcome) (date iso : String)
    (s : SchedulerState) (store : Option (Option Metadata)) :
    Bool × SchedulerState × Option (Option Metadata) :=
  if apiSuccess then
    let pc := s.photo_count + 1
    let md : Metadata := ⟨pc, dictIncr s.metadata.photos_by_date date, some iso⟩
    (true, ⟨pc, md⟩, save_metadata saveOut md store)
  else
    (false, s, store)

end PhotoSchedulerPy

/-- A run of consecutive successful captures through
`PhotoSchedulerPy.capture_photo` (every HTTP call and metadata write
succeeds), one `(date, iso)` timestamp pair per capture. -/
def runCaptures (s : SchedulerState) (store : Option (Option Metadata)) :
    List (String × String) → SchedulerState × Option (Option Metadata)
  | [] => (s, store)
  | (date, iso) :: rest =>
      let r := PhotoSchedulerPy.capture_photo true WriteOutcome.ok date iso s store
      runCaptures r.2.1 r.2.2 rest

/-- A frame: the pixel buffer numpy hands back from `camera.read()`. -/
abbrev Frame := List Nat

/-- numpy `frame.copy()`: a fresh buffer holding the same pixels. -/
def Frame.copy (f : Frame) : Frame := f.map fun x => x

namespace StreamServer

/-- stream_server.py `PhotoScheduler.capture_photo`: read the camera
manager's latest frame; with no frame available, log and return None with
nothing touched; otherwise write the image with `cv2.imwrite` and, only when
that reports success, update the metadata exactly as the photo_scheduler
copy does, save it (a metadata-write failure is logged and swallowed inside
`save_metadata`), and return the filename; a failed image write logs and
returns None with nothing touched. `frame` is `get_frame()`'s result,
`imwriteOk` the image write's outcome, `saveOut` the metadata write's,
`date`/`iso`/`filename` the timestamp formattings. -/
def capture_photo (frame : Option Frame) (imwriteOk : Bool)
    (saveOut : WriteOutcome) (date iso filename : String) (s : SchedulerState)
    (store : Option (Option Metadata)) :
    Option String × SchedulerState × Option (Option Metadata) :=
  match frame with
  | none => (none, s, store)
  | some _ =>
      if imwriteOk then
        let pc := s.photo_count + 1
        let md : Metadata := ⟨pc, dictIncr s.metadata.photos_by_date date, some iso⟩
        (some filename, ⟨pc, md⟩, save_metadata saveOut md store)
      else
        (none, s, store)

end StreamServer

/-! ## The schedule library's job set

Both scheduler files drive the third-party `schedule` library's global job
registry; the claims about installing, clearing and rescheduling jobs are
decided by its semantics, embedded here: a job keeps its period (in seconds),
its tag, the reason string passed to its capture callback, and its `next_run`
instant; `run_pending` runs every job whose `next_run` has passed and then
sets `next_run := now + period` — the library reschedules from the moment the
job ran, not from the moment it was due. -/

structure Job where
  interval : Nat
  next_run : Nat
  tag : String
  reason : String
deriving DecidableEq, Repr

/-- Installing a job,
`schedule.every(n).minutes/seconds.do(capture_photo, reason).tag(t)`:
a freshly installed job first comes due `interval` seconds from now. -/
def mkJob (interval now : Nat) (tag reason : String) : Job :=
  ⟨interval, now + interval, tag, reason⟩

/-- A call of `schedule.run_pending()` at wall-clock second `now`: each job
whose
`next_run` has passed runs once and is rescheduled to `now + interval`. A
tick never removes a job: the capture callbacks catch their own exceptions
and return None/False/filename, never `schedule.CancelJob`. -/
def runPending (now : Nat) (jobs : List Job) : List Job :=
  jobs.map fun j =>
    if j.next_run ≤ now then { j with next_run := now + j.interval } else j

namespace PhotoSchedulerPy

/-- photo_scheduler.py `PhotoScheduler.schedule_photos` acting on the
library's job registry at wall-clock second `now`: `schedule.clear()` drops
every job — whatever its tag, transient or not — and then two recurring jobs
are installed: every 5 minutes tagged "high_freq" with reason
"high_frequency", and every 15 minutes tagged "low_freq" with reason
"low_frequency" (intervals in seconds). -/
def schedule_photos (now : Nat) (_jobs : List Job) : List Job :=
  [mkJob 300 now "high_freq" "high_frequency",
   mkJob 900 now "low_freq" "low_frequency"]

end PhotoSchedulerPy

namespace StreamServer

/-- stream_server.py `PhotoScheduler.schedule_photos`: `schedule.clear()`
drops every job, then FOUR jobs are installed — two transient test jobs
(every 45 s and every 90 s, both tagged "test") ahead of the same two
recurring jobs as the photo_scheduler copy. -/
def schedule_photos (now : Nat) (_jobs : List Job) : List Job :=
  [mkJob 45 now "test" "test_45s",
   mkJob 90 now "test" "test_90s",
   mkJob 300 now "high_freq" "high_frequency",
   mkJob 900 now "low_freq" "low_frequency"]

end StreamServer

namespace AppPy

/-- app.py `CameraManager`'s fields: the `cv2.VideoCapture` handle (`none`
until a probe succeeds; the `Nat` is the device it was opened on), the index
it was found at, the streaming flag, and the latest published frame. -/
structure CameraManager where
  camera : Option Nat
  camera_index : Option Nat
  is_streaming : Bool
  last_frame : Option Frame
deriving DecidableEq, Repr

/-- The constructor `CameraManager.__init__`: no camera, no index, not
streaming, no frame. -/
def CameraManager.init : CameraManager := ⟨none, none, false, none⟩

/-- One iteration of `_stream_frames`: while `is_streaming` and a camera
handle exists, a successful `camera.read()` publishes a copy of the frame
into `last_frame`; a failed read, or a stopped or uninitialized manager,
changes nothing. `read` is the outcome of `camera.read()`. -/
def stream_frames_step (s : CameraManager) (read : Option Frame) : CameraManager :=
  if s.is_streaming && s.camera.isSome then
    match read with
    | some frame => { s with last_frame := some (Frame.copy frame) }
    | none => s
  else s

/-- The `CameraManager.get_frame` method: a copy of `last_frame`, or None
when no frame
has ever been published. -/
def get_frame (s : CameraManager) : Option Frame :=
  match s.last_frame with
  | some f => some (Frame.copy f)
  | none => none

/-- The `CameraManager.stop_streaming` method: assign `is_streaming = False`
and, when a
camera handle exists, call its `release()`. No other field is assigned. The
second component records whether `release()` was called. -/
def stop_streaming (s : CameraManager) : CameraManager × Bool :=
  ({ s with is_streaming := false }, s.camera.isSome)

/-- The `/status` route's payload (timestamp aside). -/
structure Status where
  camera_connected : Bool
  is_streaming : Bool
  camera_index : Option Nat
deriving DecidableEq, Repr

/-- app.py `/status`: `camera_connected` is `camera is not None`. -/
def status (s : CameraManager) : Status :=
  ⟨s.camera.isSome, s.is_streaming, s.camera_index⟩

end AppPy

namespace PhotoSchedulerPy

/-- The `while self.is_running` loop of photo_scheduler.py `run_scheduler`,
driven by the successive outcomes of `check_web_server()`: each iteration
first re-checks the web server — a False breaks out of the loop, a True runs
the pending jobs and sleeps. The result is the number of
`schedule.run_pending()` calls made before the break (starting from `n`), or
`none` when no check in the modelled trace returns False (the loop is still
running at the end of the trace). -/
def scheduler_loop : List Bool → Nat → Option Nat
  | [], _ => none
  | check :: rest, n => if check then scheduler_loop rest (n + 1) else some n

/-- How a `run_scheduler` call ended: whether `is_running` was ever set, how
many `run_pending` ticks ran, and the final value of `is_running`. -/
structure RunOutcome where
  started : Bool
  ticks : Nat
  is_running : Bool
deriving DecidableEq, Repr

/-- photo_scheduler.py `run_scheduler`: a False from the initial
`check_web_server()` returns at once, before `is_running` is ever set true
and before any tick; otherwise the loop runs until some check returns False,
and the `finally` block's `stop_scheduler()` leaves `is_running` False. The
result is `none` when the modelled trace of check outcomes never contains a
False (the loop is still running). -/
def run_scheduler (initialCheck : Bool) (loopChecks : List Bool) :
    Option RunOutcome :=
  if initialCheck then
    match scheduler_loop loopChecks 0 with
    | some n => some ⟨true, n, false⟩
    | none => none
  else
    some ⟨false, 0, false⟩

end PhotoSchedulerPy

/-- For valid times, Python's field-wise time comparison agrees with
comparison of microseconds since midnight. -/
theorem timeLe_eq_toMicros_le (a b : TimeOfDay) (ha : a.valid = true)
    (hb : b.valid = true) :
    timeLe a b = true ↔ a.toMicros ≤ b.toMicros := by
  obtain ⟨h1, m1, s1, u1⟩ := a
  obtain ⟨h2, m2, s2, u2⟩ := b
  simp only [TimeOfDay.valid, Bool.and_eq_true, decide_eq_true_eq] at ha hb
  simp only [timeLe, TimeOfDay.toMicros, Bool.or_eq_true, Bool.and_eq_true,
    decide_eq_true_eq]
  omega

/-- C1: for every valid time of day `t`, the capture-policy function of
`photo_scheduler.py` returns 5 minutes exactly when `t` lies in
[07:00, 09:30] or [16:00, 19:00] (boundaries included) and 15 minutes
otherwise; but the copy in `stream_server.py` never returns at all: it raises
`TypeError` on every call, because `datetime.time(7, 0)` invokes the instance
method of the imported `datetime` class on an integer. -/
theorem C1_capture_policy (t : TimeOfDay) (ht : t.valid = true) :
    PhotoSchedulerPy.get_current_interval t =
        (if specHighWindow t then 5 else 15) ∧
      StreamServer.get_current_interval t = Except.error PyError.typeError := by
  refine ⟨?_, rfl⟩
  have h7 := timeLe_eq_toMicros_le ⟨7, 0, 0, 0⟩ t (by decide) ht
  have h930 := timeLe_eq_toMicros_le t ⟨9, 30, 0, 0⟩ ht (by decide)
  have h16 := timeLe_eq_toMicros_le ⟨16, 0, 0, 0⟩ t (by decide) ht
  have h19 := timeLe_eq_toMicros_le t ⟨19, 0, 0, 0⟩ ht (by decide)
  have hc : ((timeLe ⟨7, 0, 0, 0⟩ t && timeLe t ⟨9, 30, 0, 0⟩) ||
        (timeLe ⟨16, 0, 0, 0⟩ t && timeLe t ⟨19, 0, 0, 0⟩)) =
      specHighWindow t := by
    rw [Bool.eq_iff_iff]
    simp only [specHighWindow, Bool.or_eq_true, Bool.and_eq_true,
      decide_eq_true_eq, h7, h930, h16, h19]
    norm_num [TimeOfDay.toMicros]
  simp only [PhotoSchedulerPy.get_current_interval, hc]

/-- Witness for C1 at the concrete time 08:00:00.000000. -/
theorem C1_capture_policy_witness :
    TimeOfDay.valid ⟨8, 0, 0, 0⟩ = true ∧
      (PhotoSchedulerPy.get_current_interval ⟨8, 0, 0, 0⟩ =
          (if specHighWindow ⟨8, 0, 0, 0⟩ then 5 else 15) ∧
        StreamServer.get_current_interval ⟨8, 0, 0, 0⟩ =
          Except.error PyError.typeError) :=
  ⟨by decide, C1_capture_policy ⟨8, 0, 0, 0⟩ (by decide)⟩

/-- Bumping one date's bucket grows the per-date sum by exactly one. -/
theorem sumCounts_dictIncr (m : List (String × Nat)) (d : String) :
    sumCounts (dictIncr m d) = sumCounts m + 1 := by
  induction m with
  | nil => rfl
  | cons kv rest ih =>
      obtain ⟨k, v⟩ := kv
      by_cases h : k = d <;> simp [dictIncr, sumCounts, h] <;>
        simp [sumCounts] at ih <;> omega

/-- Along a run of successful captures, `photo_count`, `total_photos` and the
per-date sum advance in lockstep once they agree. -/
theorem runCaptures_counts (caps : List (String × String)) :
    ∀ (s : SchedulerState) (store : Option (Option Metadata)),
      s.metadata.total_photos = s.photo_count →
      sumCounts s.metadata.photos_by_date = s.photo_count →
      (runCaptures s store caps).1.metadata.total_photos
          = s.photo_count + caps.length ∧
        sumCounts (runCaptures s store caps).1.metadata.photos_by_date
          = s.photo_count + caps.length := by
  induction caps with
  | nil =>
      intro s store h1 h2
      simpa [runCaptures] using ⟨h1, h2⟩
  | cons c rest ih =>
      intro s store h1 h2
      obtain ⟨date, iso⟩ := c
      have h := ih ⟨s.photo_count + 1,
          ⟨s.photo_count + 1, dictIncr s.metadata.photos_by_date date, some iso⟩⟩
        (save_metadata WriteOutcome.ok
          ⟨s.photo_count + 1, dictIncr s.metadata.photos_by_date date, some iso⟩
          store)
        rfl (by simpa [sumCounts_dictIncr] using h2)
      simpa [runCaptures, PhotoSchedulerPy.capture_photo, Nat.add_assoc,
        Nat.add_comm 1 rest.length] using h

/-- C2 counterexample: construct the scheduler over a persisted store that
already records one photo (`total_photos = 1`, one 1-photo date bucket — a
state satisfying the invariant), then perform one successful capture: the
capture overwrites `total_photos` with the in-process counter (now 1) while
the date buckets sum to 2, so `total_photos` differs from the per-date sum. -/
theorem C2_counterexample :
    (PhotoSchedulerPy.capture_photo true WriteOutcome.ok "2025-01-01"
        "2025-01-01T12:00:00"
        (initScheduler (some (some ⟨1, [("2025-01-01", 1)], none⟩)))
        (some (some ⟨1, [("2025-01-01", 1)], none⟩))).2.1.metadata.total_photos
      ≠ sumCounts (PhotoSchedulerPy.capture_photo true WriteOutcome.ok
          "2025-01-01" "2025-01-01T12:00:00"
          (initScheduler (some (some ⟨1, [("2025-01-01", 1)], none⟩)))
          (some (some ⟨1, [("2025-01-01", 1)],
            none⟩))).2.1.metadata.photos_by_date := by
  decide

/-- C2 (amended): the invariant holds for executions that start from the zero
state — construct the scheduler over a missing store and perform any run of N
successful captures: `total_photos = N` and the per-date counts sum to N (so
they agree at every step of such a run); with a nonempty loaded store the
first capture resets `total_photos` to the in-process count and breaks the
invariant. -/
theorem C2_metadata_invariant (caps : List (String × String)) :
    (runCaptures (initScheduler none) none caps).1.metadata.total_photos
        = caps.length ∧
      sumCounts (runCaptures (initScheduler none) none caps).1.metadata.photos_by_date
        = caps.length := by
  simpa [initScheduler] using runCaptures_counts caps (initScheduler none) none rfl rfl

/-- C3: a capture attempted while the frame buffer holds no frame returns the
no-frame failure (None) and leaves the scheduler state — `photo_count`,
`total_photos`, `photos_by_date`, `last_capture` — and the persisted store
exactly as they were, whatever they were. -/
theorem C3_no_frame_capture (imwriteOk : Bool) (saveOut : WriteOutcome)
    (date iso filename : String) (s : SchedulerState)
    (store : Option (Option Metadata)) :
    StreamServer.capture_photo none imwriteOk saveOut date iso filename s store
      = (none, s, store) := rfl

/-- C4 counterexample: a job with a 5-second interval due at 10 and executed
by a tick at 12 is rescheduled to 17 = 12 + 5, not to its due instant plus
the interval (15): the schedule library reschedules from the run time. -/
theorem C4_counterexample :
    (runPending 12 [⟨5, 10, "high_freq", "high_frequency"⟩]).map Job.next_run
      ≠ [10 + 5] := by decide

/-- C4 (amended): a job due at D and executed by a tick at T >= D has next
due time T + interval — rescheduled forward from the tick that ran it, not
from the due instant, so late ticks do shift subsequent occurrences. -/
theorem C4_reschedule_from_run_time (j : Job) (now : Nat)
    (h : j.next_run ≤ now) :
    runPending now [j] = [{ j with next_run := now + j.interval }] := by
  simp [runPending, h]

/-- Witness for C4 at the concrete job (interval 5, due 10) and tick 12. -/
theorem C4_reschedule_from_run_time_witness :
    (⟨5, 10, "high_freq", "high_frequency"⟩ : Job).next_run ≤ 12 ∧
      runPending 12 [⟨5, 10, "high_freq", "high_frequency"⟩]
        = [⟨5, 17, "high_freq", "high_frequency"⟩] :=
  ⟨by decide,
    C4_reschedule_from_run_time ⟨5, 10, "high_freq", "high_frequency"⟩ 12
      (by decide)⟩

/-- C5 counterexample: a transient job tagged "test" installed before the
call is not left alone — photo_scheduler.py's `schedule_photos` starts with
`schedule.clear()`, which drops it — and stream_server.py's copy installs
four jobs, not exactly two. -/
theorem C5_counterexample :
    (PhotoSchedulerPy.schedule_photos 0 [mkJob 45 0 "test" "probe"]).filter
        (fun j => j.tag == "test") = [] ∧
      (StreamServer.schedule_photos 0 []).length ≠ 2 := by decide

/-- C5 (amended): `schedule_photos` clears the ENTIRE job set — transient
jobs included — and installs a fixed job set independent of what was there:
in photo_scheduler.py exactly the two recurring jobs (5-minute "high_freq"
and 15-minute "low_freq", with distinguishing reasons); in stream_server.py
those two plus two transient "test" jobs; repeated calls therefore always
yield the same steady-state job set. -/
theorem C5_schedule_photos (now : Nat) (jobs jobs' : List Job) :
    PhotoSchedulerPy.schedule_photos now jobs
        = [mkJob 300 now "high_freq" "high_frequency",
           mkJob 900 now "low_freq" "low_frequency"] ∧
      PhotoSchedulerPy.schedule_photos now jobs
        = PhotoSchedulerPy.schedule_photos now jobs' ∧
      StreamServer.schedule_photos now jobs
        = [mkJob 45 now "test" "test_45s", mkJob 90 now "test" "test_90s",
           mkJob 300 now "high_freq" "high_frequency",
           mkJob 900 now "low_freq" "low_frequency"] ∧
      StreamServer.schedule_photos now jobs
        = StreamServer.schedule_photos now jobs' :=
  ⟨rfl, rfl, rfl, rfl⟩

/-- A tick keeps every job's tag: no job is removed or retagged. -/
theorem runPending_map_tag (now : Nat) (jobs : List Job) :
    (runPending now jobs).map Job.tag = jobs.map Job.tag := by
  induction jobs with
  | nil => rfl
  | cons j rest ih =>
      by_cases h : j.next_run ≤ now <;> simp [runPending, h] <;>
        simpa [runPending] using ih

/-- A tick keeps every job's interval. -/
theorem runPending_map_interval (now : Nat) (jobs : List Job) :
    (runPending now jobs).map Job.interval = jobs.map Job.interval := by
  induction jobs with
  | nil => rfl
  | cons j rest ih =>
      by_cases h : j.next_run ≤ now <;> simp [runPending, h] <;>
        simpa [runPending] using ih

/-- C6 counterexample: a capture in which the image write succeeds but the
metadata write fails (here: the dump fails after the truncating open) still
reports success to its caller — the filename, not a failure — because
`save_metadata` swallows the exception. -/
theorem C6_counterexample :
    (StreamServer.capture_photo (some [0]) true WriteOutcome.dumpFailed
        "2025-01-01" "2025-01-01T12:00:00" "garage_1.jpg"
        (initScheduler none) none).1
      = some "garage_1.jpg" := by decide

/-- C6 (amended): a capture whose IMAGE write fails reports failure (None)
and leaves the metadata and the store unchanged (the metadata write is never
reached); a capture whose METADATA write fails — whether the open or the
dump failed — is only logged: it still reports the filename as success; and
in either case the scheduled job set is untouched: the capture path never
references the schedule, and a tick preserves every job's tag and interval
whatever its callback returned, so the job fires again at its next due
time. -/
theorem C6_persistence_failures (f : Frame) (saveOut : WriteOutcome)
    (date iso filename : String) (s : SchedulerState)
    (store : Option (Option Metadata)) (now : Nat) (jobs : List Job) :
    StreamServer.capture_photo (some f) false saveOut date iso filename s store
        = (none, s, store) ∧
      (StreamServer.capture_photo (some f) true WriteOutcome.dumpFailed
          date iso filename s store).1
        = some filename ∧
      (StreamServer.capture_photo (some f) true WriteOutcome.openFailed
          date iso filename s store).1
        = some filename ∧
      (runPending now jobs).map Job.tag = jobs.map Job.tag ∧
      (runPending now jobs).map Job.interval = jobs.map Job.interval :=
  ⟨rfl, rfl, rfl, runPending_map_tag now jobs, runPending_map_interval now jobs⟩

/-- Copying a frame yields an equal frame. -/
theorem Frame.copy_eq (f : Frame) : Frame.copy f = f := by
  simp [Frame.copy]

/-- C7: before any publish — at construction, and in any state whose
`last_frame` slot is still empty — `get_frame` returns no frame; and after a
completed publish of `f` (a successful read in the running stream loop,
which stores a copy of `f`), `get_frame` returns a copy equal to `f`. -/
theorem C7_frame_buffer :
    AppPy.get_frame AppPy.CameraManager.init = none ∧
      (∀ s : AppPy.CameraManager, s.last_frame = none →
        AppPy.get_frame s = none) ∧
      (∀ (s : AppPy.CameraManager) (f : Frame), s.is_streaming = true →
        s.camera.isSome = true →
        AppPy.get_frame (AppPy.stream_frames_step s (some f)) = some f) := by
  refine ⟨rfl, ?_, ?_⟩
  · intro s h
    simp [AppPy.get_frame, h]
  · intro s f hs hc
    simp [AppPy.stream_frames_step, AppPy.get_frame, hs, hc, Frame.copy_eq]

/-- Witness for C7: publishing the concrete frame [1, 2, 3] in a streaming
manager makes `get_frame` return it. -/
theorem C7_frame_buffer_witness :
    AppPy.get_frame
        (AppPy.stream_frames_step ⟨some 0, some 0, true, none⟩ (some [1, 2, 3]))
      = some [1, 2, 3] :=
  C7_frame_buffer.2.2 ⟨some 0, some 0, true, none⟩ [1, 2, 3] rfl rfl

/-- C8: a missing metadata file and a file that does not read as JSON both
load as the zero state `{total_photos: 0, photos_by_date: {},
last_capture: None}`; `load_metadata` is a total function, so startup never
fails because of the persisted store. -/
theorem C8_load_zero_state :
    load_metadata none = emptyMetadata ∧
      load_metadata (some none) = emptyMetadata ∧
      emptyMetadata = ⟨0, [], none⟩ :=
  ⟨rfl, rfl, rfl⟩

/-- The loop runs exactly the `k` leading successful checks, then the first
failing check breaks it. -/
theorem scheduler_loop_replicate (k : Nat) (post : List Bool) :
    ∀ n, PhotoSchedulerPy.scheduler_loop
      (List.replicate k true ++ false :: post) n = some (n + k) := by
  induction k with
  | zero =>
      intro n
      simp [PhotoSchedulerPy.scheduler_loop]
  | succ k ih =>
      intro n
      rw [List.replicate_succ, List.cons_append]
      rw [show PhotoSchedulerPy.scheduler_loop
            (true :: (List.replicate k true ++ false :: post)) n
          = PhotoSchedulerPy.scheduler_loop
            (List.replicate k true ++ false :: post) (n + 1) from rfl]
      rw [ih (n + 1)]
      congr 1
      omega

/-- C9: a False from the initial `check_web_server()` makes `run_scheduler`
return at once — never started, zero ticks, `is_running` never set; and in a
started run whose loop checks are `k` Trues followed by a False, the loop
breaks right after that failing check, having run exactly `k` ticks, and the
scheduler stops (`is_running` False) — no capture-job failure needed. -/
theorem C9_probe_failure_stops (cks : List Bool) (k : Nat) (post : List Bool) :
    PhotoSchedulerPy.run_scheduler false cks
        = some ⟨false, 0, false⟩ ∧
      PhotoSchedulerPy.run_scheduler true (List.replicate k true ++ false :: post)
        = some ⟨true, k, false⟩ := by
  refine ⟨rfl, ?_⟩
  simp [PhotoSchedulerPy.run_scheduler, scheduler_loop_replicate k post 0]

/-- C10: `stop_streaming` leaves `camera`, `camera_index` and `last_frame`
exactly as they were, sets `is_streaming` to False, and calls `release()`
precisely when a camera handle exists; hence for a manager whose camera was
once initialized, `/status` still reports `camera_connected` True after the
stop. -/
theorem C10_stop_keeps_camera (s : AppPy.CameraManager) (c : Nat) :
    (AppPy.stop_streaming s).1.camera = s.camera ∧
      (AppPy.stop_streaming s).1.camera_index = s.camera_index ∧
      (AppPy.stop_streaming s).1.last_frame = s.last_frame ∧
      (AppPy.stop_streaming s).1.is_streaming = false ∧
      (AppPy.stop_streaming s).2 = s.camera.isSome ∧
      (s.camera = some c →
        AppPy.status (AppPy.stop_streaming s).1
          = ⟨true, false, s.camera_index⟩) := by
  refine ⟨rfl, rfl, rfl, rfl, rfl, ?_⟩
  intro h
  simp [AppPy.status, AppPy.stop_streaming, h]

/-- Witness for C10: stopping a streaming manager opened on device 0 still
reports `camera_connected` True. -/
theorem C10_stop_keeps_camera_witness :
    AppPy.status (AppPy.stop_streaming ⟨some 0, some 0, true, none⟩).1
      = ⟨true, false, some 0⟩ :=
  (C10_stop_keeps_camera ⟨some 0, some 0, true, none⟩ 0).2.2.2.2.2 rfl

end GaragePi
